import Mathlib

/-
Verification of the request-routing and handler layer of the
module-update-router HTTP service (routes.go), via a shallow embedding.

External collaborators (the identity adapter, the persistence adapter, the
JSON error envelope helper) are passed in as oracle values or modelled from
the specification where their code is not part of the routing layer.
-/

namespace MUR

/-- An HTTP response as observed by the client: status code, optional
Content-Type header, and body. In the Go code the status defaults to 200
unless WriteHeader is called. -/
structure Response where
  status : Nat
  contentType : Option String
  body : String
deriving DecidableEq, Repr

/-- The structured identity produced by the external identity adapter
(identity.GetIdentity). The organization id is a plain string; the caller
type is a string pointer in Go (`Type *string`), so it is modelled as
`Option String`, `none` standing for a nil pointer. -/
structure Identity where
  orgID : String
  callerType : Option String
deriving DecidableEq, Repr

/-- Modelled from the spec: `formatJSONError` is not part of routes.go.
The spec says every error is returned with the stated HTTP status,
`Content-Type: application/json`, and a uniform JSON error body holding at
least a message field. The model records the status and embeds the message
in the uniform envelope. -/
def formatJSONError (status : Nat) (message : String) : Response :=
  { status := status
  , contentType := some "application/json"
  , body := "\x7b\"errors\":[\x7b\"title\":\"" ++ message ++ "\"\x7d]\x7d" }

/-- Log severity levels used by the logging middleware (logrus levels). -/
inductive LogLevel where
  | errorLevel
  | warnLevel
  | infoLevel
deriving DecidableEq, Repr

/-- The severity computation of the logging middleware `log` (routes.go
lines 215-223). The Go `switch` takes the FIRST case whose condition holds,
top to bottom: `rr.Code >= 400` is listed before `rr.Code >= 500`. -/
def logLevel (code : Nat) : LogLevel :=
  if 400 ≤ code then LogLevel.warnLevel
  else if 500 ≤ code then LogLevel.errorLevel
  else LogLevel.infoLevel

/-- The JSON serialization of response struct of handleChannel
`struct \x7b URL string `json:"url"` \x7d`; `json.Marshal` of this struct
cannot fail (its error branch in the source is dead), so it is embedded as
a total function. -/
def channelBody (url : String) : String :=
  "\x7b\"url\":\"" ++ url ++ "\"\x7d"

/-- The handler for `<prefix>/channel` (routes.go, handleChannel).
Inputs are the `module` query parameter of the request (Go Values.Get
returns "" when the parameter is absent), the result of
identity.GetIdentity, and the pair returned by s.db.Count(module, orgID):
a count together with an optional error. On a count error the source only
logs it; execution continues with the returned count value. -/
def handleChannel (module : String) (idRes : Except String Identity)
    (countRes : Int × Option String) : Response :=
  if module.length < 1 then
    formatJSONError 400 "missing required parameter: \x27module\x27"
  else
    match idRes with
    | Except.error e => formatJSONError 500 e
    | Except.ok id =>
      if id.orgID = "" then
        formatJSONError 400 "missing org_id identity field"
      else
        let count := countRes.1
        let url := if count > 0 then "/testing" else "/release"
        { status := 200
        , contentType := some "application/json"
        , body := channelBody url }

/-- Go-style quoting of the failing numeric string inside the strconv error
message (strconv.Quote), for the printable-ASCII inputs that occur in query
strings: backslash and double quote are escaped, other characters are kept
verbatim. -/
def goQuote (s : String) : String :=
  "\"" ++ String.mk (s.data.flatMap fun c =>
    if c = '\\' then ['\\', '\\']
    else if c = '"' then ['\\', '"']
    else [c]) ++ "\""

/-- The embedding of the Go function `strconv.ParseInt(s, 10, 64)`: an optional
leading sign followed by one or more decimal digits, rejected with
"invalid syntax" otherwise; the magnitude must fit in a signed 64-bit
integer or the parse fails with "value out of range". The error string is
the one produced by NumError.Error in strconv. -/
def parseInt10 (s : String) : Except String Int :=
  let synErr : Except String Int :=
    Except.error ("strconv.ParseInt: parsing " ++ goQuote s ++ ": invalid syntax")
  let rngErr : Except String Int :=
    Except.error ("strconv.ParseInt: parsing " ++ goQuote s ++ ": value out of range")
  let (neg, ds) :=
    match s.data with
    | '-' :: rest => (true, rest)
    | '+' :: rest => (false, rest)
    | cs => (false, cs)
  if ds.isEmpty ∨ ds.any (fun c => ¬ c.isDigit) then
    synErr
  else
    let n : Nat := ds.foldl (fun acc c => acc * 10 + (c.toNat - 48)) 0
    if neg then
      if 9223372036854775808 < n then rngErr else Except.ok (-(n : Int))
    else
      if 9223372036854775807 < n then rngErr else Except.ok (n : Int)

/-- The success response of GET `<prefix>/event` for serialized events
`data`, or the 500 error response when the store (or the subsequent
marshalling) failed (routes.go lines 185-198). -/
def eventResponse (res : Except String String) : Response :=
  match res with
  | Except.error e => formatJSONError 500 e
  | Except.ok data =>
    { status := 200, contentType := some "application/json", body := data }

/-- The handler for `<prefix>/event` (routes.go, handleEvent).
Inputs: the request method; the result of identity.GetIdentity; the result
of url.ParseQuery on the raw query (`some e` when it failed with error
text e); the parsed query parameters as a lookup returning "" for an
absent name (Values.Get); and the store oracle `getEvents`, which models
s.db.GetEvents composed with json.Marshal of the resulting slice (Marshal
of a slice cannot fail, so the single error case is the store error).

The POST branch only writes status 201. In the GET branch the source
dereferences `*id.Identity.Type` with no nil check: a nil caller type is a
runtime panic, modelled as the result `none`; every non-panicking outcome
is `some` response. -/
def handleEvent (method : String) (idRes : Except String Identity)
    (queryErr : Option String) (params : String → String)
    (getEvents : Int → Int → Except String String) : Option Response :=
  if method = "POST" then
    some { status := 201, contentType := none, body := "" }
  else if method = "GET" then
    match idRes with
    | Except.error e => some (formatJSONError 500 e)
    | Except.ok id =>
      match id.callerType with
      | none => none
      | some t =>
        if t ≠ "Associate" then
          some (formatJSONError 401 "")
        else
          match queryErr with
          | some e => some (formatJSONError 400 e)
          | none =>
            let lp := if params "limit" = "" then "-1" else params "limit"
            match parseInt10 lp with
            | Except.error e => some (formatJSONError 400 e)
            | Except.ok limit =>
              let op := if params "offset" = "" then "0" else params "offset"
              match parseInt10 op with
              | Except.error e => some (formatJSONError 400 e)
              | Except.ok offset =>
                some (eventResponse (getEvents limit offset))
  else
    some (formatJSONError 405 ("error: \x27" ++ method ++ "\x27 not allowed"))

/-- The shape of a handler registered in the routing table of the server: the
ping handler, the per-prefix API sub-router, or a middleware wrapping
another handler. Mirrors the closures built in routes.go. -/
inductive Handler where
  | ping
  | api (root : String)
  | metrics (next : Handler)
  | requestID (next : Handler)
  | logging (next : Handler)
  | auth (next : Handler)
deriving DecidableEq, Repr

/-- The routing table built by Server.routes (routes.go lines 63-68):
"/ping" is registered unconditionally, and every prefix p gets the handler
s.metrics(s.requestID(s.log(s.auth(s.handleAPI(p))))) bound at p ++ "/". -/
def routes (apiroots : List String) : List (String × Handler) :=
  ("/ping", Handler.ping) ::
    apiroots.map (fun p =>
      (p ++ "/",
        Handler.metrics (Handler.requestID (Handler.logging (Handler.auth (Handler.api p))))))



/-- Normal form of the GET branch of handleEvent for an "Associate"
identity and a well-formed raw query: the response is determined by the
two integer parses (with their defaults) and then by the store oracle. -/
theorem handleEvent_get_assoc_eq (org : String) (params : String → String)
    (ge : Int → Int → Except String String) :
    handleEvent "GET" (Except.ok ⟨org, some "Associate"⟩) none params ge
      = match parseInt10 (if params "limit" = "" then "-1" else params "limit") with
        | Except.error e => some (formatJSONError 400 e)
        | Except.ok limit =>
          match parseInt10 (if params "offset" = "" then "0" else params "offset") with
          | Except.error e => some (formatJSONError 400 e)
          | Except.ok offset => some (eventResponse (ge limit offset)) := by
  simp [handleEvent]

/-- Claim C1 (counterexample): at a concrete POST request whose event store
reports an error, the handler still answers 201 — not the 500 the claim
asserts for a store error. -/
theorem handleEvent_post_ignores_store_error :
    (handleEvent "POST" (Except.ok ⟨"org1", some "Associate"⟩) none (fun _ => "")
      (fun _ _ => Except.error "store down")).map Response.status = some 201
    ∧ ((handleEvent "POST" (Except.ok ⟨"org1", some "Associate"⟩) none (fun _ => "")
      (fun _ _ => Except.error "store down")).map Response.status == some 500) = false :=
  ⟨rfl, rfl⟩

/-- Claim C1 (amended): every POST request to the event endpoint receives
201 Created with an empty body unconditionally; the POST branch never
consults the event store, so no store error can surface. -/
theorem handleEvent_post_always_201 (idRes : Except String Identity)
    (queryErr : Option String) (params : String → String)
    (ge : Int → Int → Except String String) :
    handleEvent "POST" idRes queryErr params ge
      = some { status := 201, contentType := none, body := "" } := rfl

/-- Claim C2 (code evaluated at the failing input): a captured status of
500 is logged at warning level, because the switch lists the >= 400 case
before the >= 500 case; the error-level branch is unreachable. -/
theorem logLevel_status500_warn : logLevel 500 = LogLevel.warnLevel := rfl

/-- Claim C3 (counterexample): when the count lookup reports an error but
returns count 1, the handler responds with the "/testing" body, not the
"/release" body the claim asserts. -/
theorem handleChannel_count_error_uses_count :
    ((handleChannel "m" (Except.ok ⟨"org1", none⟩) (1, some "db down")).body
      == channelBody "/release") = false
    ∧ handleChannel "m" (Except.ok ⟨"org1", none⟩) (1, some "db down")
      = { status := 200, contentType := some "application/json",
          body := channelBody "/testing" } :=
  ⟨rfl, rfl⟩

/-- Claim C3 (amended): when the count lookup errors, the error is not
surfaced — the handler still responds 200 with a JSON url body — but the
decision uses the count value returned alongside the error: a positive
returned count yields "/testing", any other count yields "/release". -/
theorem handleChannel_count_error_swallowed (module org : String)
    (ty : Option String) (count : Int) (e : String)
    (hm : ¬ module.length < 1) (ho : org ≠ "") :
    handleChannel module (Except.ok ⟨org, ty⟩) (count, some e)
      = { status := 200, contentType := some "application/json",
          body := channelBody (if count > 0 then "/testing" else "/release") } := by
  simp [handleChannel, hm, ho]

/-- Witness for handleChannel_count_error_swallowed at a concrete input. -/
theorem handleChannel_count_error_swallowed_witness :
    handleChannel "m" (Except.ok ⟨"org1", none⟩) (0, some "db down")
      = { status := 200, contentType := some "application/json",
          body := channelBody (if (0 : Int) > 0 then "/testing" else "/release") } :=
  handleChannel_count_error_swallowed "m" "org1" none 0 "db down" (by decide) (by decide)

/-- Claim C4: a GET on the event endpoint with an identity whose caller
type is present but differs from "Associate" is answered 401 with the
empty error message, whatever the query parameters or raw-query parse
result are — the caller-type check precedes all parameter parsing. -/
theorem handleEvent_get_non_associate_401 (org t : String)
    (queryErr : Option String) (params : String → String)
    (ge : Int → Int → Except String String) (ht : t ≠ "Associate") :
    handleEvent "GET" (Except.ok ⟨org, some t⟩) queryErr params ge
      = some (formatJSONError 401 "") := by
  simp [handleEvent, ht]

/-- Witness for handleEvent_get_non_associate_401 at a concrete input. -/
theorem handleEvent_get_non_associate_401_witness :
    handleEvent "GET" (Except.ok ⟨"org1", some "User"⟩) (some "bad query")
      (fun _ => "zz") (fun _ _ => Except.ok "[]") = some (formatJSONError 401 "") :=
  handleEvent_get_non_associate_401 "org1" "User" (some "bad query")
    (fun _ => "zz") (fun _ _ => Except.ok "[]") (by decide)

/-- Claim C5: with a non-empty module, a non-empty organization id and a
successful count lookup, the channel handler responds 200 with
Content-Type application/json and the JSON url body, "/testing" exactly
when the count is positive and "/release" otherwise. -/
theorem handleChannel_success_decision (module org : String)
    (ty : Option String) (count : Int)
    (hm : ¬ module.length < 1) (ho : org ≠ "") :
    handleChannel module (Except.ok ⟨org, ty⟩) (count, none)
      = { status := 200, contentType := some "application/json",
          body := channelBody (if count > 0 then "/testing" else "/release") } := by
  simp [handleChannel, hm, ho]

/-- Witness for handleChannel_success_decision at a concrete input. -/
theorem handleChannel_success_decision_witness :
    handleChannel "m" (Except.ok ⟨"acct-1", some "Associate"⟩) (3, none)
      = { status := 200, contentType := some "application/json",
          body := channelBody (if (3 : Int) > 0 then "/testing" else "/release") } :=
  handleChannel_success_decision "m" "acct-1" (some "Associate") 3 (by decide) (by decide)

/-- Claim C6: the channel handler checks its preconditions in order: an
empty module parameter yields 400 with the missing-parameter message for
every identity outcome; with a non-empty module an identity-adapter error
yields 500 carrying the adapter error text; with a non-empty module and a
resolved identity an empty organization id yields 400 with the
missing-org_id message. -/
theorem handleChannel_precondition_order :
    (∀ (idRes : Except String Identity) (countRes : Int × Option String),
        handleChannel "" idRes countRes
          = formatJSONError 400 "missing required parameter: \x27module\x27")
    ∧ (∀ (module e : String) (countRes : Int × Option String),
        ¬ module.length < 1 →
        handleChannel module (Except.error e) countRes = formatJSONError 500 e)
    ∧ (∀ (module : String) (ty : Option String) (countRes : Int × Option String),
        ¬ module.length < 1 →
        handleChannel module (Except.ok ⟨"", ty⟩) countRes
          = formatJSONError 400 "missing org_id identity field") := by
  refine ⟨fun idRes countRes => rfl,
    fun module e countRes hm => by simp [handleChannel, hm],
    fun module ty countRes hm => by simp [handleChannel, hm]⟩

/-- Witness for handleChannel_precondition_order at concrete inputs. -/
theorem handleChannel_precondition_order_witness :
    handleChannel "" (Except.error "x") (0, none)
      = formatJSONError 400 "missing required parameter: \x27module\x27"
    ∧ handleChannel "m" (Except.error "boom") (0, none) = formatJSONError 500 "boom"
    ∧ handleChannel "m" (Except.ok ⟨"", some "Associate"⟩) (0, none)
      = formatJSONError 400 "missing org_id identity field" :=
  ⟨handleChannel_precondition_order.1 (Except.error "x") (0, none),
   handleChannel_precondition_order.2.1 "m" "boom" (0, none) (by decide),
   handleChannel_precondition_order.2.2 "m" (some "Associate") (0, none) (by decide)⟩

/-- Claim C7: on a GET with an "Associate" identity, an absent limit
defaults to -1 and an absent offset to 0; a supplied parameter that fails
the base-10 integer parse yields 400 with the parser error text; when both
parse, the store is queried with exactly the parsed values. -/
theorem handleEvent_get_associate_params (org : String)
    (params : String → String) (ge : Int → Int → Except String String) :
    (params "limit" = "" → params "offset" = "" →
        handleEvent "GET" (Except.ok ⟨org, some "Associate"⟩) none params ge
          = some (eventResponse (ge (-1) 0)))
    ∧ (∀ e, params "limit" ≠ "" → parseInt10 (params "limit") = Except.error e →
        handleEvent "GET" (Except.ok ⟨org, some "Associate"⟩) none params ge
          = some (formatJSONError 400 e))
    ∧ (∀ l e,
        parseInt10 (if params "limit" = "" then "-1" else params "limit") = Except.ok l →
        params "offset" ≠ "" → parseInt10 (params "offset") = Except.error e →
        handleEvent "GET" (Except.ok ⟨org, some "Associate"⟩) none params ge
          = some (formatJSONError 400 e))
    ∧ (∀ l o,
        parseInt10 (if params "limit" = "" then "-1" else params "limit") = Except.ok l →
        parseInt10 (if params "offset" = "" then "0" else params "offset") = Except.ok o →
        handleEvent "GET" (Except.ok ⟨org, some "Associate"⟩) none params ge
          = some (eventResponse (ge l o))) := by
  refine ⟨fun h1 h2 => ?_, fun e h1 h2 => ?_, fun l e h1 h2 h3 => ?_, fun l o h1 h2 => ?_⟩
  · rw [handleEvent_get_assoc_eq, if_pos h1, if_pos h2]
    rfl
  · rw [handleEvent_get_assoc_eq, if_neg h1, h2]
  · rw [handleEvent_get_assoc_eq, h1, if_neg h2, h3]
  · rw [handleEvent_get_assoc_eq, h1, h2]

/-- Witness for handleEvent_get_associate_params at a concrete input. -/
theorem handleEvent_get_associate_params_witness :
    handleEvent "GET" (Except.ok ⟨"org1", some "Associate"⟩) none
      (fun k => if k = "limit" then "5" else "") (fun _ _ => Except.ok "[]")
      = some (eventResponse (Except.ok "[]")) :=
  (handleEvent_get_associate_params "org1"
    (fun k => if k = "limit" then "5" else "") (fun _ _ => Except.ok "[]")).2.2.2
    5 0 rfl rfl

/-- Claim C8: any method other than POST and GET on the event endpoint is
answered 405 with the message error: '<METHOD>' not allowed, and that
message occurs verbatim inside the response body. -/
theorem handleEvent_other_method_405 (method : String)
    (idRes : Except String Identity) (queryErr : Option String)
    (params : String → String) (ge : Int → Int → Except String String)
    (hp : method ≠ "POST") (hg : method ≠ "GET") :
    handleEvent method idRes queryErr params ge
      = some (formatJSONError 405 ("error: \x27" ++ method ++ "\x27 not allowed"))
    ∧ ∃ pre suf,
        (formatJSONError 405 ("error: \x27" ++ method ++ "\x27 not allowed")).body.data
          = pre ++ ("error: \x27" ++ method ++ "\x27 not allowed").data ++ suf := by
  constructor
  · simp [handleEvent, hp, hg]
  · refine ⟨("\x7b\"errors\":[\x7b\"title\":\"" : String).data, ("\"\x7d]\x7d" : String).data, ?_⟩
    simp [formatJSONError, String.data_append]

/-- Witness for handleEvent_other_method_405 at a concrete input. -/
theorem handleEvent_other_method_405_witness :
    handleEvent "PUT" (Except.error "x") none (fun _ => "") (fun _ _ => Except.ok "[]")
      = some (formatJSONError 405 ("error: \x27" ++ "PUT" ++ "\x27 not allowed")) :=
  (handleEvent_other_method_405 "PUT" (Except.error "x") none (fun _ => "")
    (fun _ _ => Except.ok "[]") (by decide) (by decide)).1

/-- Claim C9: the routing table always contains "/ping" bound to the ping
handler, and for every registered prefix p it contains p ++ "/" bound to
the pipeline metrics (requestID (logging (auth (api p)))), outermost to
innermost. -/
theorem routes_pipeline (apiroots : List String) :
    ("/ping", Handler.ping) ∈ routes apiroots
    ∧ ∀ p ∈ apiroots,
        (p ++ "/",
          Handler.metrics (Handler.requestID (Handler.logging (Handler.auth (Handler.api p)))))
          ∈ routes apiroots := by
  constructor
  · exact List.mem_cons_self _ _
  · intro p hp
    exact List.mem_cons_of_mem _ (List.mem_map_of_mem _ hp)

/-- Witness for routes_pipeline at a concrete prefix list. -/
theorem routes_pipeline_witness :
    ("/api/",
      Handler.metrics (Handler.requestID (Handler.logging (Handler.auth (Handler.api "/api")))))
      ∈ routes ["/api"] :=
  (routes_pipeline ["/api"]).2 "/api" (by decide)

/-- Claim C10: on a GET, whenever the resolved identity carries a present
caller-type value the handler terminates normally with some response; when
the caller type is absent (a nil pointer in the source) the unguarded
dereference panics — modelled as none — so in particular the 401 branch is
never reached. -/
theorem handleEvent_get_callerType_deref :
    (∀ (org t : String) (queryErr : Option String) (params : String → String)
        (ge : Int → Int → Except String String),
        (handleEvent "GET" (Except.ok ⟨org, some t⟩) queryErr params ge).isSome = true)
    ∧ (∀ (org : String) (queryErr : Option String) (params : String → String)
        (ge : Int → Int → Except String String),
        handleEvent "GET" (Except.ok ⟨org, none⟩) queryErr params ge = none) := by
  constructor
  · intro org t queryErr params ge
    by_cases ht : t = "Associate"
    · subst ht
      cases queryErr with
      | some e => simp [handleEvent]
      | none =>
        rw [handleEvent_get_assoc_eq]
        cases parseInt10 (if params "limit" = "" then "-1" else params "limit") with
        | error e => rfl
        | ok l =>
          cases parseInt10 (if params "offset" = "" then "0" else params "offset") with
          | error e => rfl
          | ok o => rfl
    · simp [handleEvent, ht]
  · intro org queryErr params ge
    simp [handleEvent]

end MUR
